import Mathlib

/-!
Shallow embedding of the log-service lambdas:
  * `lambda/ingest/index.py` (validation + ingest handler)
  * `lambda/read_recent/index.py` (recent-query handler)

JSON values are modelled by the inductive `JVal`; a parsed JSON object
(a Python `dict` produced by `json.loads`) is a `Record`, an association
list from field name to value.  `json.loads` maps JSON `null` to Python
`None`; we keep the explicit `jnull` constructor so that "key present and
bound to null" is distinguishable from "key absent" at the data level,
while `pyGet` (the model of `dict.get`) collapses both to `none`, exactly
as Python does.

External library calls (base64 decoding, JSON parsing) and the two
nondeterministic inputs (`uuid.uuid4()`, `datetime.now(timezone.utc)`)
are parameters of the handler, packaged in `IngestCtx`.  The DynamoDB
`put_item` and `query` calls are reified: the ingest handler returns the
list of items it put, and the read handler returns the list of query
requests it issued, with the store's behaviour a function parameter.
-/

inductive JVal where
  | jnull
  | jbool (b : Bool)
  | jnum (n : Int)
  | jstr (s : String)
  | jarr (xs : List JVal)
  | jobj (kvs : List (String × JVal))

/-- A parsed JSON object (Python `dict`): field name ↦ value. -/
def Record : Type := List (String × JVal)

/-- Model of Python `body.get(k)`: returns Python `None` both when the key
is absent and when it is bound to JSON `null` (which `json.loads` decodes
to `None`).  Lean `none` stands for Python `None`. -/
def pyGet (body : Record) (k : String) : Option JVal :=
  match List.lookup k body with
  | some JVal.jnull => none
  | some v => some v
  | none => none

/-- Model of Python `body[k]` (`dict.__getitem__`): raises `KeyError` when
the key is absent; an explicit JSON null indexes successfully to `None`. -/
def pyIndex (body : Record) (k : String) : Except Unit JVal :=
  match List.lookup k body with
  | some v => Except.ok v
  | none => Except.error ()

/-- Python truthiness of a JSON-decoded value (`bool(v)`): `None`, `False`,
`0`, `""`, `[]` and `{}` are falsy, everything else truthy.  JSON numbers
are modelled as integers. -/
def truthy : JVal → Bool
  | JVal.jnull => false
  | JVal.jbool b => b
  | JVal.jnum n => n != 0
  | JVal.jstr s => s != ""
  | JVal.jarr xs => !xs.isEmpty
  | JVal.jobj kvs => !kvs.isEmpty

/-- Truthiness of the result of `body.get(k)` (Python `None` is falsy). -/
def truthyOpt : Option JVal → Bool
  | none => false
  | some v => truthy v

/-- Python `repr` of a string, modelled for the common cases: single
quotes, escaping backslash, the quote and the usual control characters;
double quotes when the string contains a single quote but no double quote
(in which case Python leaves the single quote unescaped). -/
def strReprChar (c : Char) : String :=
  if c = '\\' then "\\\\"
  else if c = '\'' then "\\'"
  else if c = '\n' then "\\n"
  else if c = '\r' then "\\r"
  else if c = '\t' then "\\t"
  else String.singleton c

def strRepr (s : String) : String :=
  if s.contains '\'' && !s.contains '"' then "\"" ++ s ++ "\""
  else "'" ++ String.join (s.data.map strReprChar) ++ "'"

/-- Python `repr` of a JSON-decoded value (`None`, `True`, numbers,
quoted strings, lists, dicts). -/
def pyRepr : JVal → String
  | JVal.jnull => "None"
  | JVal.jbool true => "True"
  | JVal.jbool false => "False"
  | JVal.jnum n => toString n
  | JVal.jstr s => strRepr s
  | JVal.jarr xs => "[" ++ String.intercalate ", " (xs.attach.map fun x => pyRepr x.1) ++ "]"
  | JVal.jobj kvs =>
      "\x7b" ++
        String.intercalate ", "
          (kvs.attach.map fun x => strRepr x.1.1 ++ ": " ++ pyRepr x.1.2) ++
      "\x7d"
decreasing_by
  · have := List.sizeOf_lt_of_mem x.2
    simp only [JVal.jarr.sizeOf_spec]
    omega
  · have := List.sizeOf_lt_of_mem x.2
    rcases x with ⟨⟨k, v⟩, hx⟩
    simp only [Prod.mk.sizeOf_spec] at this
    simp only [JVal.jobj.sizeOf_spec]
    omega

/-- Python `str(v)` as used by f-string interpolation: the identity on
strings, `repr`-based otherwise (`str(None) = "None"`, `str(True) =
"True"`, lists/dicts print via `repr` of their elements). -/
def pyStr : JVal → String
  | JVal.jstr s => s
  | v => pyRepr v

/-- `VALID_SEVERITIES = {"info", "warning", "error"}`. -/
def VALID_SEVERITIES : List String := ["info", "warning", "error"]

/-- Python `severity in VALID_SEVERITIES`: a set of strings; a non-string
JSON value never equals any member. -/
def inValidSeverities : JVal → Bool
  | JVal.jstr s => VALID_SEVERITIES.contains s
  | _ => false

/-!
### The timestamp regular expression

`ISO8601_RE = ^\d{4}-\d{2}-\d{2}[T ]\d{2}:\d{2}:\d{2}(\.\d+)?(Z|[+-]\d{2}:?\d{2})?$`

The pattern is implemented as a deterministic matcher over the character
list.  Determinism is faithful here: every optional/repeated group is
followed only by alternatives that cannot start with a character the
group could consume, so the backtracking search of Python `re` agrees
with maximal-munch first-committed matching.  Two `re` subtleties are
modelled explicitly: `\d` in a `str` pattern without `re.ASCII` matches
every Unicode decimal digit (general category Nd), not just `0-9`
(`pyDigit` below); and `$` (no `MULTILINE`) matches at the end of the
string *or just before a single trailing newline* (`matchEnd` below).
-/

/-- The code points of Unicode general category Nd (decimal digits), as
inclusive ranges: the character class Python's `\d` matches in a `str`
pattern without `re.ASCII`.  Unicode 15.0, the character database of
CPython 3.12 — the runtime the stack pins for both lambdas. -/
def ndRanges : List (Nat × Nat) :=
  [(0x30, 0x39), (0x660, 0x669), (0x6F0, 0x6F9), (0x7C0, 0x7C9),
   (0x966, 0x96F), (0x9E6, 0x9EF), (0xA66, 0xA6F), (0xAE6, 0xAEF),
   (0xB66, 0xB6F), (0xBE6, 0xBEF), (0xC66, 0xC6F), (0xCE6, 0xCEF),
   (0xD66, 0xD6F), (0xDE6, 0xDEF), (0xE50, 0xE59), (0xED0, 0xED9),
   (0xF20, 0xF29), (0x1040, 0x1049), (0x1090, 0x1099), (0x17E0, 0x17E9),
   (0x1810, 0x1819), (0x1946, 0x194F), (0x19D0, 0x19D9), (0x1A80, 0x1A89),
   (0x1A90, 0x1A99), (0x1B50, 0x1B59), (0x1BB0, 0x1BB9), (0x1C40, 0x1C49),
   (0x1C50, 0x1C59), (0xA620, 0xA629), (0xA8D0, 0xA8D9), (0xA900, 0xA909),
   (0xA9D0, 0xA9D9), (0xA9F0, 0xA9F9), (0xAA50, 0xAA59), (0xABF0, 0xABF9),
   (0xFF10, 0xFF19), (0x104A0, 0x104A9), (0x10D30, 0x10D39), (0x11066, 0x1106F),
   (0x110F0, 0x110F9), (0x11136, 0x1113F), (0x111D0, 0x111D9), (0x112F0, 0x112F9),
   (0x11450, 0x11459), (0x114D0, 0x114D9), (0x11650, 0x11659), (0x116C0, 0x116C9),
   (0x11730, 0x11739), (0x118E0, 0x118E9), (0x11950, 0x11959), (0x11C50, 0x11C59),
   (0x11D50, 0x11D59), (0x11DA0, 0x11DA9), (0x11F50, 0x11F59), (0x16A60, 0x16A69),
   (0x16AC0, 0x16AC9), (0x16B50, 0x16B59), (0x1D7CE, 0x1D7FF), (0x1E140, 0x1E149),
   (0x1E2F0, 0x1E2F9), (0x1E4F0, 0x1E4F9), (0x1E950, 0x1E959), (0x1FBF0, 0x1FBF9)]

/-- Python `\d` for a `str` pattern (no `re.ASCII`): any Unicode decimal
digit. -/
def pyDigit (c : Char) : Bool :=
  ndRanges.any fun r => decide (r.1 ≤ c.toNat) && decide (c.toNat ≤ r.2)

/-- Consume exactly `n` digits (`\d{n}`), returning the rest. -/
def takeDigits : Nat → List Char → Option (List Char)
  | 0, cs => some cs
  | _ + 1, [] => none
  | n + 1, c :: cs => if pyDigit c then takeDigits n cs else none

/-- Consume one fixed character. -/
def lit (a : Char) : List Char → Option (List Char)
  | [] => none
  | c :: cs => if c = a then some cs else none

/-- Consume `\d+` (greedy). -/
def takeDigitsPlus : List Char → Option (List Char)
  | [] => none
  | c :: cs => if pyDigit c then some (cs.dropWhile pyDigit) else none

/-- Consume `[T ]`. -/
def takeSep : List Char → Option (List Char)
  | [] => none
  | c :: cs => if c = 'T' ∨ c = ' ' then some cs else none

/-- Consume `(\.\d+)?`. -/
def takeFrac (cs : List Char) : Option (List Char) :=
  match cs with
  | '.' :: rest => takeDigitsPlus rest
  | _ => some cs

/-- Consume `(Z|[+-]\d{2}:?\d{2})?`. -/
def takeTz (cs : List Char) : Option (List Char) :=
  match cs with
  | 'Z' :: rest => some rest
  | c :: rest =>
      if c = '+' ∨ c = '-' then
        match takeDigits 2 rest with
        | some (':' :: rest2) => takeDigits 2 rest2
        | some rest2 => takeDigits 2 rest2
        | none => none
      else some cs
  | [] => some []

/-- Python `$` (no `MULTILINE`): end of input, or just before a single
trailing newline. -/
def matchEnd : List Char → Bool
  | [] => true
  | ['\n'] => true
  | _ => false

/-- The body of `ISO8601_RE` up to (excluding) the `$` anchor. -/
def iso8601Tail (l : List Char) : Option (List Char) :=
  (takeDigits 4 l).bind fun l =>
  (lit '-' l).bind fun l =>
  (takeDigits 2 l).bind fun l =>
  (lit '-' l).bind fun l =>
  (takeDigits 2 l).bind fun l =>
  (takeSep l).bind fun l =>
  (takeDigits 2 l).bind fun l =>
  (lit ':' l).bind fun l =>
  (takeDigits 2 l).bind fun l =>
  (lit ':' l).bind fun l =>
  (takeDigits 2 l).bind fun l =>
  (takeFrac l).bind fun l =>
  takeTz l

/-- `bool(ISO8601_RE.match(s))`. -/
def iso8601Match (s : String) : Bool :=
  match iso8601Tail s.data with
  | some rest => matchEnd rest
  | none => false

/-!
### The validator (`_validate` in `lambda/ingest/index.py`)
-/

def missingSeverityMsg : String := "Missing required field: 'severity'"

/-- `f"Invalid severity '{severity}'. Must be one of: {', '.join(sorted(VALID_SEVERITIES))}"`;
`sorted({"info", "warning", "error"})` is `["error", "info", "warning"]`. -/
def invalidSeverityMsg (v : JVal) : String :=
  "Invalid severity '" ++ pyStr v ++ "'. Must be one of: error, info, warning"

def missingMessageMsg : String := "Missing required field: 'message'"

def invalidDateTimeMsg (v : JVal) : String :=
  "Invalid dateTime format: '" ++ pyStr v ++ "'. Expected ISO 8601."

/-- `_validate(body)`: returns the accumulated list of validation error
messages, in source order (severity, message, dateTime). -/
def _validate (body : Record) : List String :=
  let errors : List String := []
  -- severity is required and must be one of the allowed values
  let errors :=
    match pyGet body "severity" with
    | none => errors ++ [missingSeverityMsg]
    | some v => if inValidSeverities v then errors else errors ++ [invalidSeverityMsg v]
  -- message is required (falsy check: `if not body.get("message")`)
  let errors :=
    if truthyOpt (pyGet body "message") then errors else errors ++ [missingMessageMsg]
  -- dateTime is optional but must match ISO8601_RE if provided
  let errors :=
    match pyGet body "dateTime" with
    | none => errors
    | some v => if iso8601Match (pyStr v) then errors else errors ++ [invalidDateTimeMsg v]
  errors

/-- The errors contributed by the severity rule. -/
def severityErrs (body : Record) : List String :=
  match pyGet body "severity" with
  | none => [missingSeverityMsg]
  | some v => if inValidSeverities v then [] else [invalidSeverityMsg v]

/-- The errors contributed by the message rule. -/
def messageErrs (body : Record) : List String :=
  if truthyOpt (pyGet body "message") then [] else [missingMessageMsg]

/-- The errors contributed by the dateTime rule. -/
def dateTimeErrs (body : Record) : List String :=
  match pyGet body "dateTime" with
  | none => []
  | some v => if iso8601Match (pyStr v) then [] else [invalidDateTimeMsg v]

/-!
### The ingest handler (`handler` / `_handle` in `lambda/ingest/index.py`)

Every response of both lambdas carries the constant header
`Content-Type: application/json`; the header map is therefore not
modelled.  The response body is modelled as the structured value passed
to `json.dumps` (with dict insertion order preserved, as `json.dumps`
does).
-/

/-- The DynamoDB item built by the ingest handler. -/
structure Item where
  LogID : JVal
  DateTime : JVal
  Severity : JVal
  Message : JVal
  LogType : String

structure Response where
  statusCode : Nat
  body : JVal

/-- Per-invocation environment of the ingest lambda: the external library
calls (`base64.b64decode(...).decode("utf-8")`, `json.loads`) and the two
nondeterministic values drawn during the invocation (`str(uuid.uuid4())`
and `datetime.now(timezone.utc).isoformat()`).  A library call that
raises is an `Except.error`; `json.loads` failures are `JSONDecodeError`,
the only exception `_handle` catches. -/
structure IngestCtx where
  decodeBase64 : String → Except Unit String
  parseJson : String → Except Unit JVal
  newUuid : String
  nowIso : String

/-- The fields of the Function URL event the ingest handler reads:
`event.get("requestContext", {}).get("http", {}).get("method", "")`
(missing pieces default to `""`), `event.get("body", "")`, and the
truthiness of `event.get("isBase64Encoded")`. -/
structure IngestEvent where
  method : String
  body : String
  isBase64Encoded : Bool

/-- Python `a or b` for `a = body.get(k)` (used for the `id` and
`dateTime` defaults): the left value if truthy, otherwise the default. -/
def pyOr (o : Option JVal) (dflt : JVal) : JVal :=
  match o with
  | some v => if truthy v then v else dflt
  | none => dflt

namespace Ingest

/-- Result of one ingest invocation: the HTTP response, the items written
with `table.put_item` and the bodies passed to `_validate`, in order. -/
structure Outcome where
  response : Response
  puts : List Item
  validations : List Record

/-- `_handle(event)`.  An uncaught Python exception is `Except.error`,
carrying the `(puts, validations)` effects performed before the raise;
the uncaught exceptions are a failing base64/utf-8 decode, and the
`AttributeError`/`KeyError` raised by `body.get`/`body[...]` when the
parsed JSON body is not an object (both occur before any `put_item`). -/
def _handle (ctx : IngestCtx) (event : IngestEvent) :
    Except (List Item × List Record) Outcome :=
  -- Only accept POST requests
  if event.method ≠ "POST" then
    .ok ⟨⟨405, .jobj [("error",
        .jstr ("Method " ++ event.method ++ " not allowed. Use POST."))]⟩, [], []⟩
  else
    match (if event.isBase64Encoded then ctx.decodeBase64 event.body
           else .ok event.body) with
    | .error _ => .error ([], [])
    | .ok rawBody =>
      -- `body = json.loads(raw_body) if raw_body else {}`
      match (if rawBody = "" then .ok (JVal.jobj []) else ctx.parseJson rawBody) with
      | .error _ =>
          .ok ⟨⟨400, .jobj [("error", .jstr "Request body must be valid JSON")]⟩, [], []⟩
      | .ok bodyVal =>
        match bodyVal with
        | JVal.jobj body =>
          -- the Python locals `errors`, `log_id`, `date_time` and `item`
          -- are inlined here
          if _validate body ≠ [] then
            .ok ⟨⟨400, .jobj [("errors", .jarr ((_validate body).map JVal.jstr))]⟩,
              [], [body]⟩
          else
            match pyIndex body "severity", pyIndex body "message" with
            | .ok sev, .ok msg =>
                .ok ⟨⟨200, .jobj [("message", .jstr "Log entry created"),
                    ("id", pyOr (pyGet body "id") (.jstr ctx.newUuid)),
                    ("dateTime", pyOr (pyGet body "dateTime") (.jstr ctx.nowIso))]⟩,
                  [⟨pyOr (pyGet body "id") (.jstr ctx.newUuid),
                    pyOr (pyGet body "dateTime") (.jstr ctx.nowIso), sev, msg, "LOG"⟩],
                  [body]⟩
            | _, _ => .error ([], [body])
        | _ => .error ([], [])

/-- The outer `handler`: catches every exception and returns the generic
500 response. -/
def handler (ctx : IngestCtx) (event : IngestEvent) : Outcome :=
  match _handle ctx event with
  | .ok out => out
  | .error (puts, validations) =>
      ⟨⟨500, .jobj [("error", .jstr "Internal server error")]⟩, puts, validations⟩

end Ingest

/-!
### The read-recent handler (`handler` / `_handle` in
`lambda/read_recent/index.py`)
-/

/-- The arguments of the single `table.query(...)` call:
`IndexName`, the `KeyConditionExpression` `Key(keyAttr).eq(keyVal)`,
`ScanIndexForward` and `Limit`. -/
structure QueryReq where
  indexName : String
  keyAttr : String
  keyVal : String
  scanIndexForward : Bool
  limit : Nat

namespace ReadRecent

/-- Result of one read invocation: the HTTP response and the query
requests issued to the store, in order. -/
structure Outcome where
  response : Response
  queries : List QueryReq

/-- `_handle(event)`, with the store's behaviour abstracted as the
function `queryFn` from a query request to the `Items` of its response.
`method` is the extracted
`event.get("requestContext", {}).get("http", {}).get("method", "")`. -/
def _handle (queryFn : QueryReq → List Item) (method : String) : Outcome :=
  -- Only accept GET requests
  if method ≠ "GET" then
    ⟨⟨405, .jobj [("error",
        .jstr ("Method " ++ method ++ " not allowed. Use GET."))]⟩, []⟩
  else
    let req : QueryReq := ⟨"DateTimeIndex", "LogType", "LOG", false, 100⟩
    let items := queryFn req
    let logs := items.map fun item =>
      JVal.jobj [("id", item.LogID), ("dateTime", item.DateTime),
                 ("severity", item.Severity), ("message", item.Message)]
    ⟨⟨200, .jobj [("count", .jnum logs.length), ("logs", .jarr logs)]⟩, [req]⟩

/-- The outer `handler` (the model of `_handle` raises no exception, so
the catch-all is the identity). -/
def handler (queryFn : QueryReq → List Item) (method : String) : Outcome :=
  _handle queryFn method

end ReadRecent

/-!
### Concrete fixtures for witnesses and counterexamples
-/

/-- A context whose JSON parser returns the fixed record `body`, with
concrete generated id and current-time values. -/
def fixedCtx (body : Record) : IngestCtx :=
  ⟨fun _ => Except.ok "", fun _ => Except.ok (JVal.jobj body),
    "generated-id", "2024-06-01T12:00:00+00:00"⟩

/-- A context whose JSON parser always fails (malformed body). -/
def errCtx : IngestCtx :=
  ⟨fun _ => Except.ok "", fun _ => Except.error (),
    "generated-id", "2024-06-01T12:00:00+00:00"⟩

def postEvent : IngestEvent := ⟨"POST", "x", false⟩

/-!
### The spec-side timestamp pattern

An independent formalisation of the spec's description of the accepted
timestamp form: "`YYYY-MM-DD` separated by `T` or a space from
`HH:MM:SS`, with an optional fractional-seconds suffix, and an optional
timezone suffix that is either `Z` or a signed `HH:MM`/`HHMM` offset".
It is a grammar of explicit decompositions, to be compared with the
source-side matcher `iso8601Match`.  A "digit" here is any Unicode
decimal digit (`pyDigit`), the class the source's `\d` accepts — the
anchor semantics, not the digit class, is where matcher and description
diverge.
-/

/-- `_validate` accumulates the three independent rule checks in order. -/
theorem validate_eq_append (body : Record) :
    _validate body = severityErrs body ++ messageErrs body ++ dateTimeErrs body := by
  unfold _validate severityErrs messageErrs dateTimeErrs
  rcases hs : pyGet body "severity" with _ | v
  · rcases hd : pyGet body "dateTime" with _ | w
    · by_cases hm : truthyOpt (pyGet body "message") = true <;> simp [hm]
    · by_cases hm : truthyOpt (pyGet body "message") = true <;>
        by_cases hw : iso8601Match (pyStr w) = true <;> simp [hm, hw]
  · rcases hd : pyGet body "dateTime" with _ | w
    · by_cases hm : truthyOpt (pyGet body "message") = true <;>
        by_cases hv : inValidSeverities v = true <;> simp [hm, hv]
    · by_cases hm : truthyOpt (pyGet body "message") = true <;>
        by_cases hv : inValidSeverities v = true <;>
        by_cases hw : iso8601Match (pyStr w) = true <;> simp [hm, hv, hw]

theorem severityErrs_empty_iff (body : Record) :
    severityErrs body = [] ↔
      ∃ v, pyGet body "severity" = some v ∧ inValidSeverities v = true := by
  unfold severityErrs
  rcases hs : pyGet body "severity" with _ | v
  · simp
  · by_cases hv : inValidSeverities v = true <;> simp [hv]

theorem messageErrs_empty_iff (body : Record) :
    messageErrs body = [] ↔ truthyOpt (pyGet body "message") = true := by
  unfold messageErrs
  by_cases hm : truthyOpt (pyGet body "message") = true <;> simp [hm]

theorem dateTimeErrs_empty_iff (body : Record) :
    dateTimeErrs body = [] ↔
      ∀ v, pyGet body "dateTime" = some v → iso8601Match (pyStr v) = true := by
  unfold dateTimeErrs
  rcases hd : pyGet body "dateTime" with _ | w
  · simp
  · by_cases hw : iso8601Match (pyStr w) = true <;> simp [hw]

/-!
### Distinctness of the four message families

Each distinctness fact is proved from a mismatch inside the fixed
prefixes of the two messages, so it holds whatever the interpolated
value is.
-/

theorem append_ne_append (a b x y : String) (n : Nat)
    (ha : n ≤ a.length) (hb : n ≤ b.length)
    (hne : a.data.take n ≠ b.data.take n) : a ++ x ≠ b ++ y := by
  intro h
  apply hne
  have hd : a.data ++ x.data = b.data ++ y.data := by
    have := congrArg String.data h
    simpa [String.data_append] using this
  have := congrArg (List.take n) hd
  rwa [List.take_append_of_le_length ha, List.take_append_of_le_length hb] at this

theorem invalidSeverityMsg_ne_missingSeverityMsg (v : JVal) :
    invalidSeverityMsg v ≠ missingSeverityMsg := by
  have h := append_ne_append "Invalid severity '" "Missing required field: 'severity'"
    (pyStr v ++ "'. Must be one of: error, info, warning") "" 1
    (by decide) (by decide) (by decide)
  simpa [invalidSeverityMsg, missingSeverityMsg, String.append_assoc,
    String.append_empty] using h

theorem invalidSeverityMsg_ne_missingMessageMsg (v : JVal) :
    invalidSeverityMsg v ≠ missingMessageMsg := by
  have h := append_ne_append "Invalid severity '" "Missing required field: 'message'"
    (pyStr v ++ "'. Must be one of: error, info, warning") "" 1
    (by decide) (by decide) (by decide)
  simpa [invalidSeverityMsg, missingMessageMsg, String.append_assoc,
    String.append_empty] using h

theorem invalidSeverityMsg_ne_invalidDateTimeMsg (v w : JVal) :
    invalidSeverityMsg v ≠ invalidDateTimeMsg w := by
  have h := append_ne_append "Invalid severity '" "Invalid dateTime format: '"
    (pyStr v ++ "'. Must be one of: error, info, warning")
    (pyStr w ++ "'. Expected ISO 8601.") 9
    (by decide) (by decide) (by decide)
  simpa [invalidSeverityMsg, invalidDateTimeMsg, String.append_assoc] using h

theorem pyGet_some_lookup (body : Record) (k : String) (v : JVal)
    (h : pyGet body k = some v) : List.lookup k body = some v := by
  unfold pyGet at h
  rcases hl : List.lookup k body with _ | w
  · rw [hl] at h
    exact absurd h (by simp)
  · rw [hl] at h
    cases w <;> simp_all

theorem pyIndex_of_pyGet (body : Record) (k : String) (v : JVal)
    (h : pyGet body k = some v) : pyIndex body k = Except.ok v := by
  unfold pyIndex
  rw [pyGet_some_lookup body k v h]

theorem truthyOpt_some (body : Record) (k : String)
    (h : truthyOpt (pyGet body k) = true) :
    ∃ v, pyGet body k = some v ∧ truthy v = true := by
  rcases hg : pyGet body k with _ | v
  · rw [hg] at h
    exact absurd h (by simp [truthyOpt])
  · rw [hg] at h
    exact ⟨v, rfl, h⟩

/-- A value whose textual form the regex accepts is necessarily truthy:
every falsy JSON value has a concrete textual form the regex rejects. -/
theorem truthy_of_iso8601 (v : JVal) (h : iso8601Match (pyStr v) = true) :
    truthy v = true := by
  cases v with
  | jnull =>
    rw [show pyStr JVal.jnull = "None" from by simp [pyStr, pyRepr]] at h
    exact absurd h (by decide)
  | jbool b =>
    cases b with
    | false =>
      rw [show pyStr (JVal.jbool false) = "False" from by simp [pyStr, pyRepr]] at h
      exact absurd h (by decide)
    | true => rfl
  | jnum n =>
    by_cases hn : n = 0
    · subst hn
      rw [show pyStr (JVal.jnum 0) = "0" from by
        simp [pyStr, pyRepr]
        rfl] at h
      exact absurd h (by decide)
    · simp [truthy, hn]
  | jstr s =>
    by_cases hs : s = ""
    · subst hs
      exact absurd h (by decide)
    · simp [truthy, hs]
  | jarr xs =>
    cases xs with
    | nil =>
      rw [show pyStr (JVal.jarr []) = "[]" from by
        simp [pyStr, pyRepr]
        rfl] at h
      exact absurd h (by decide)
    | cons a as => rfl
  | jobj kvs =>
    cases kvs with
    | nil =>
      rw [show pyStr (JVal.jobj []) = "\x7b\x7d" from by
        simp [pyStr, pyRepr]
        rfl] at h
      exact absurd h (by decide)
    | cons a as => rfl

/-!
### Control-flow lemmas for the ingest handler
-/

theorem ingest_handle_ok_cases (ctx : IngestCtx) (ev : IngestEvent)
    (out : Ingest.Outcome) (h : Ingest._handle ctx ev = Except.ok out) :
    (out.puts = [] ∧ out.response.statusCode ≠ 200) ∨
    (∃ item, out.puts = [item] ∧ out.response.statusCode = 200) := by
  unfold Ingest._handle at h
  split at h
  · cases h
    left
    exact ⟨rfl, by simp⟩
  · split at h
    · cases h
    · split at h
      · cases h
        left
        exact ⟨rfl, by simp⟩
      · split at h
        · split at h
          · cases h
            left
            exact ⟨rfl, by simp⟩
          · split at h
            · cases h
              right
              exact ⟨_, rfl, rfl⟩
            · cases h
        · cases h

theorem ingest_handle_error_cases (ctx : IngestCtx) (ev : IngestEvent)
    (p : List Item) (v : List Record)
    (h : Ingest._handle ctx ev = Except.error (p, v)) : p = [] := by
  unfold Ingest._handle at h
  split at h
  · cases h
  · split at h
    · cases h
      rfl
    · split at h
      · cases h
      · split at h
        · split at h
          · cases h
          · split at h
            · cases h
            · cases h
              rfl
        · cases h
          rfl

/-- The ingest write is all-or-nothing: every invocation either performs
no `put_item` and does not return 200, or performs exactly one `put_item`
and returns 200. -/
theorem ingest_dichotomy (ctx : IngestCtx) (ev : IngestEvent) :
    ((Ingest.handler ctx ev).puts = [] ∧
        (Ingest.handler ctx ev).response.statusCode ≠ 200) ∨
    (∃ item, (Ingest.handler ctx ev).puts = [item] ∧
        (Ingest.handler ctx ev).response.statusCode = 200) := by
  rcases hh : Ingest._handle ctx ev with e | out
  · rcases e with ⟨p, v⟩
    have hp := ingest_handle_error_cases ctx ev p v hh
    subst hp
    left
    simp [Ingest.handler, hh]
  · have := ingest_handle_ok_cases ctx ev out hh
    simpa only [Ingest.handler, hh] using this

/-- Reduction of `_handle` once the method is POST and the body decodes
and parses to a JSON object. -/
theorem ingest_handle_post (ctx : IngestCtx) (ev : IngestEvent)
    (raw : String) (kvs : Record)
    (hm : ev.method = "POST")
    (hdec : (if ev.isBase64Encoded then ctx.decodeBase64 ev.body
             else Except.ok ev.body) = Except.ok raw)
    (hparse : (if raw = "" then Except.ok (JVal.jobj [])
               else ctx.parseJson raw) = Except.ok (JVal.jobj kvs)) :
    Ingest._handle ctx ev =
      (if _validate kvs ≠ [] then
        Except.ok ⟨⟨400, .jobj [("errors", .jarr ((_validate kvs).map JVal.jstr))]⟩,
          [], [kvs]⟩
      else
        match pyIndex kvs "severity", pyIndex kvs "message" with
        | .ok sev, .ok msg =>
            Except.ok ⟨⟨200, .jobj [("message", .jstr "Log entry created"),
                ("id", pyOr (pyGet kvs "id") (.jstr ctx.newUuid)),
                ("dateTime", pyOr (pyGet kvs "dateTime") (.jstr ctx.nowIso))]⟩,
              [⟨pyOr (pyGet kvs "id") (.jstr ctx.newUuid),
                pyOr (pyGet kvs "dateTime") (.jstr ctx.nowIso), sev, msg, "LOG"⟩],
              [kvs]⟩
        | _, _ => Except.error ([], [kvs])) := by
  unfold Ingest._handle
  rw [hm]
  simp only [ne_eq, not_true_eq_false, if_false, reduceIte, hdec, hparse]

theorem ingest_success_of_valid (ctx : IngestCtx) (ev : IngestEvent)
    (raw : String) (body : Record)
    (hm : ev.method = "POST")
    (hdec : (if ev.isBase64Encoded then ctx.decodeBase64 ev.body
             else Except.ok ev.body) = Except.ok raw)
    (hparse : (if raw = "" then Except.ok (JVal.jobj [])
               else ctx.parseJson raw) = Except.ok (JVal.jobj body))
    (hval : _validate body = []) :
    ∃ sv mv,
      pyGet body "severity" = some sv ∧ inValidSeverities sv = true ∧
      pyGet body "message" = some mv ∧ truthy mv = true ∧
      Ingest.handler ctx ev =
        ⟨⟨200, .jobj [("message", .jstr "Log entry created"),
            ("id", pyOr (pyGet body "id") (.jstr ctx.newUuid)),
            ("dateTime", pyOr (pyGet body "dateTime") (.jstr ctx.nowIso))]⟩,
          [⟨pyOr (pyGet body "id") (.jstr ctx.newUuid),
            pyOr (pyGet body "dateTime") (.jstr ctx.nowIso), sv, mv, "LOG"⟩],
          [body]⟩ := by
  have hv := validate_eq_append body
  rw [hval] at hv
  have h1 := List.append_eq_nil.mp hv.symm
  have h2 := List.append_eq_nil.mp h1.1
  obtain ⟨sv, hsv, hsvv⟩ := (severityErrs_empty_iff body).mp h2.1
  have hmsg := (messageErrs_empty_iff body).mp h2.2
  obtain ⟨mv, hmv, hmvt⟩ := truthyOpt_some body "message" hmsg
  refine ⟨sv, mv, hsv, hsvv, hmv, hmvt, ?_⟩
  unfold Ingest.handler
  rw [ingest_handle_post ctx ev raw body hm hdec hparse]
  rw [if_neg (by simp [hval])]
  rw [pyIndex_of_pyGet body "severity" sv hsv, pyIndex_of_pyGet body "message" mv hmv]

theorem mem_messageErrs (body : Record) (x : String) (h : x ∈ messageErrs body) :
    x = missingMessageMsg := by
  unfold messageErrs at h
  split at h
  · simp at h
  · simpa using h

theorem mem_dateTimeErrs (body : Record) (x : String) (h : x ∈ dateTimeErrs body) :
    ∃ v, x = invalidDateTimeMsg v := by
  unfold dateTimeErrs at h
  split at h
  · simp at h
  · split at h
    · simp at h
    · simp at h
      exact ⟨_, h⟩

/-- Shared facts when `severity` is absent (or null): the missing-field
message is reported and no invalid-value message can appear. -/
theorem severity_missing_facts (body : Record)
    (h : pyGet body "severity" = none) :
    missingSeverityMsg ∈ _validate body ∧
    ∀ v, invalidSeverityMsg v ∉ _validate body := by
  have hs : severityErrs body = [missingSeverityMsg] := by
    unfold severityErrs
    rw [h]
  constructor
  · rw [validate_eq_append, hs]
    simp
  · intro v hmem
    rw [validate_eq_append] at hmem
    rcases List.mem_append.mp hmem with hmem | hdt
    · rcases List.mem_append.mp hmem with hsev | hmsg
      · rw [hs] at hsev
        simp at hsev
        exact absurd hsev (invalidSeverityMsg_ne_missingSeverityMsg v)
      · exact absurd (mem_messageErrs body _ hmsg)
          (invalidSeverityMsg_ne_missingMessageMsg v)
    · obtain ⟨w, hw⟩ := mem_dateTimeErrs body _ hdt
      exact absurd hw (invalidSeverityMsg_ne_invalidDateTimeMsg v w)

/-- **C10**: a `severity` key bound to an explicit JSON null is treated
exactly like an absent key: the Validator reports the missing-field
message, and the invalid-value message cannot appear. -/
theorem claim_C10_null_severity_is_missing (body : Record)
    (h : List.lookup "severity" body = some JVal.jnull) :
    missingSeverityMsg ∈ _validate body ∧
    ∀ v, invalidSeverityMsg v ∉ _validate body := by
  have hg : pyGet body "severity" = none := by
    unfold pyGet
    rw [h]
  exact severity_missing_facts body hg

theorem claim_C10_witness :
    missingSeverityMsg ∈ _validate [("severity", JVal.jnull)] :=
  (claim_C10_null_severity_is_missing [("severity", JVal.jnull)] rfl).1

/-- **C2**: for every GET request the read handler issues exactly one
query — on index `DateTimeIndex`, key condition `LogType = "LOG"`,
descending (`ScanIndexForward = false`), `Limit = 100` — and returns 200
with body `{count, logs}`, where `logs` projects each store-returned item,
in store order, to exactly `{id, dateTime, severity, message}` (dropping
the partition tag), `count` is the number of entries (possibly 0), and —
the store honouring `Limit` — there are at most 100 entries. -/
theorem claim_C2_read_recent (queryFn : QueryReq → List Item) (method : String)
    (hlim : ∀ q, (queryFn q).length ≤ q.limit)
    (hm : method = "GET") :
    (ReadRecent.handler queryFn method).queries =
      [⟨"DateTimeIndex", "LogType", "LOG", false, 100⟩] ∧
    (ReadRecent.handler queryFn method).response.statusCode = 200 ∧
    (ReadRecent.handler queryFn method).response.body =
      JVal.jobj
        [("count", JVal.jnum
            (queryFn ⟨"DateTimeIndex", "LogType", "LOG", false, 100⟩).length),
         ("logs", JVal.jarr
            ((queryFn ⟨"DateTimeIndex", "LogType", "LOG", false, 100⟩).map
              fun item => JVal.jobj
                [("id", item.LogID), ("dateTime", item.DateTime),
                 ("severity", item.Severity), ("message", item.Message)]))] ∧
    (queryFn ⟨"DateTimeIndex", "LogType", "LOG", false, 100⟩).length ≤ 100 := by
  subst hm
  refine ⟨rfl, rfl, ?_, hlim _⟩
  unfold ReadRecent.handler ReadRecent._handle
  simp [List.length_map]

theorem claim_C2_witness :
    (ReadRecent.handler (fun _ => []) "GET").response.statusCode = 200 :=
  (claim_C2_read_recent (fun _ => []) "GET" (fun _ => by simp) rfl).2.1

/-- **C3**: for every request that passes validation, exactly one item is
stored, with `LogID` the client id when present and non-empty and
otherwise the freshly generated token, `DateTime` the client value when
present and otherwise the current UTC instant, `Severity`/`Message`
copied verbatim from the request, and the fixed partition tag `"LOG"`;
the 200 response body carries exactly the stored id and dateTime together
with the message `"Log entry created"`.  (The `id` field is assumed
absent, null, or a string, as the data model prescribes.) -/
theorem claim_C3_success_fields (ctx : IngestCtx) (ev : IngestEvent)
    (raw : String) (kvs : Record)
    (hm : ev.method = "POST")
    (hdec : (if ev.isBase64Encoded then ctx.decodeBase64 ev.body
             else Except.ok ev.body) = Except.ok raw)
    (hparse : (if raw = "" then Except.ok (JVal.jobj [])
               else ctx.parseJson raw) = Except.ok (JVal.jobj kvs))
    (hval : _validate kvs = [])
    (hid : pyGet kvs "id" = none ∨ ∃ s, pyGet kvs "id" = some (JVal.jstr s)) :
    ∃ idv dtv sv mv,
      Ingest.handler ctx ev =
        ⟨⟨200, .jobj [("message", .jstr "Log entry created"),
            ("id", idv), ("dateTime", dtv)]⟩,
          [⟨idv, dtv, sv, mv, "LOG"⟩], [kvs]⟩ ∧
      pyGet kvs "severity" = some sv ∧
      pyGet kvs "message" = some mv ∧
      ((∃ s, s ≠ "" ∧ pyGet kvs "id" = some (JVal.jstr s) ∧ idv = JVal.jstr s) ∨
        ((pyGet kvs "id" = none ∨ pyGet kvs "id" = some (JVal.jstr "")) ∧
          idv = JVal.jstr ctx.newUuid)) ∧
      ((∃ v, pyGet kvs "dateTime" = some v ∧ dtv = v) ∨
        (pyGet kvs "dateTime" = none ∧ dtv = JVal.jstr ctx.nowIso)) := by
  obtain ⟨sv, mv, hsv, hsvv, hmv, hmvt, heq⟩ :=
    ingest_success_of_valid ctx ev raw kvs hm hdec hparse hval
  refine ⟨pyOr (pyGet kvs "id") (.jstr ctx.newUuid),
    pyOr (pyGet kvs "dateTime") (.jstr ctx.nowIso), sv, mv, heq, hsv, hmv, ?_, ?_⟩
  · rcases hid with hnone | ⟨s, hs⟩
    · exact Or.inr ⟨Or.inl hnone, by simp [pyOr, hnone]⟩
    · by_cases hse : s = ""
      · subst hse
        exact Or.inr ⟨Or.inr hs, by simp [pyOr, hs, truthy]⟩
      · exact Or.inl ⟨s, hse, hs, by simp [pyOr, hs, truthy, hse]⟩
  · rcases hdt : pyGet kvs "dateTime" with _ | v
    · exact Or.inr ⟨rfl, by simp [pyOr, hdt]⟩
    · have hv2 := validate_eq_append kvs
      rw [hval] at hv2
      have hdtval := (List.append_eq_nil.mp hv2.symm).2
      have hiso := (dateTimeErrs_empty_iff kvs).mp hdtval v hdt
      have ht := truthy_of_iso8601 v hiso
      exact Or.inl ⟨v, rfl, by simp [pyOr, hdt, ht]⟩

theorem claim_C3_witness :
    ∃ idv dtv sv mv,
      Ingest.handler
          (fixedCtx [("severity", JVal.jstr "error"), ("message", JVal.jstr "disk full")])
          postEvent =
        ⟨⟨200, .jobj [("message", .jstr "Log entry created"),
            ("id", idv), ("dateTime", dtv)]⟩,
          [⟨idv, dtv, sv, mv, "LOG"⟩],
          [[("severity", JVal.jstr "error"), ("message", JVal.jstr "disk full")]]⟩ ∧
      pyGet [("severity", JVal.jstr "error"), ("message", JVal.jstr "disk full")]
          "severity" = some sv ∧
      pyGet [("severity", JVal.jstr "error"), ("message", JVal.jstr "disk full")]
          "message" = some mv ∧
      ((∃ s, s ≠ "" ∧
          pyGet [("severity", JVal.jstr "error"), ("message", JVal.jstr "disk full")]
            "id" = some (JVal.jstr s) ∧ idv = JVal.jstr s) ∨
        ((pyGet [("severity", JVal.jstr "error"), ("message", JVal.jstr "disk full")]
            "id" = none ∨
          pyGet [("severity", JVal.jstr "error"), ("message", JVal.jstr "disk full")]
            "id" = some (JVal.jstr "")) ∧
          idv = JVal.jstr (fixedCtx [("severity", JVal.jstr "error"),
            ("message", JVal.jstr "disk full")]).newUuid)) ∧
      ((∃ v, pyGet [("severity", JVal.jstr "error"), ("message", JVal.jstr "disk full")]
            "dateTime" = some v ∧ dtv = v) ∨
        (pyGet [("severity", JVal.jstr "error"), ("message", JVal.jstr "disk full")]
            "dateTime" = none ∧
          dtv = JVal.jstr (fixedCtx [("severity", JVal.jstr "error"),
            ("message", JVal.jstr "disk full")]).nowIso)) :=
  claim_C3_success_fields
    (fixedCtx [("severity", JVal.jstr "error"), ("message", JVal.jstr "disk full")])
    postEvent "x" [("severity", JVal.jstr "error"), ("message", JVal.jstr "disk full")]
    rfl rfl rfl (by decide) (Or.inl rfl)

/-- **C4**: the ingest write is all-or-nothing: every invocation that
answers a 4xx status has performed no `put_item` at all, and every 200
answer has performed exactly one. -/
theorem claim_C4_atomicity (ctx : IngestCtx) (ev : IngestEvent) :
    (400 ≤ (Ingest.handler ctx ev).response.statusCode ∧
        (Ingest.handler ctx ev).response.statusCode < 500 →
      (Ingest.handler ctx ev).puts = []) ∧
    ((Ingest.handler ctx ev).response.statusCode = 200 →
      ∃ item, (Ingest.handler ctx ev).puts = [item]) := by
  rcases ingest_dichotomy ctx ev with ⟨hp, hs⟩ | ⟨item, hp, hs⟩
  · exact ⟨fun _ => hp, fun h => absurd h hs⟩
  · refine ⟨fun h => ?_, fun _ => ⟨item, hp⟩⟩
    rw [hs] at h
    omega

/-- **C8**: a request with the wrong method gets 405 with a body naming
the rejected and the expected method: the ingest handler expects POST,
the read handler expects GET. -/
theorem claim_C8_method_not_allowed (ctx : IngestCtx) (ev : IngestEvent)
    (queryFn : QueryReq → List Item) (m : String) :
    (ev.method ≠ "POST" →
      Ingest.handler ctx ev =
        ⟨⟨405, .jobj [("error",
            .jstr ("Method " ++ ev.method ++ " not allowed. Use POST."))]⟩,
          [], []⟩) ∧
    (m ≠ "GET" →
      ReadRecent.handler queryFn m =
        ⟨⟨405, .jobj [("error",
            .jstr ("Method " ++ m ++ " not allowed. Use GET."))]⟩, []⟩) := by
  constructor
  · intro h
    unfold Ingest.handler Ingest._handle
    rw [if_pos h]
  · intro h
    unfold ReadRecent.handler ReadRecent._handle
    rw [if_pos h]

/-- **C9**: a non-empty (decoded) body that fails JSON parsing yields 400
with the fixed malformed-body message, no write and no validator call;
an empty body is treated as the empty record and passed to the
Validator. -/
theorem claim_C9_body_parsing (ctx : IngestCtx) (ev : IngestEvent) (raw : String)
    (hm : ev.method = "POST")
    (hdec : (if ev.isBase64Encoded then ctx.decodeBase64 ev.body
             else Except.ok ev.body) = Except.ok raw) :
    (raw ≠ "" → ctx.parseJson raw = Except.error () →
      Ingest.handler ctx ev =
        ⟨⟨400, .jobj [("error", .jstr "Request body must be valid JSON")]⟩,
          [], []⟩) ∧
    (raw = "" → (Ingest.handler ctx ev).validations = [([] : Record)]) := by
  constructor
  · intro hne hperr
    unfold Ingest.handler Ingest._handle
    rw [hm]
    simp only [ne_eq, not_true_eq_false, if_false, reduceIte, hdec]
    rw [if_neg hne, hperr]
  · intro hre
    subst hre
    unfold Ingest.handler Ingest._handle
    rw [hm]
    simp only [ne_eq, not_true_eq_false, if_false, reduceIte, hdec]
    rw [if_pos (show ¬_validate ([] : Record) = [] from by decide)]

theorem claim_C9_witness :
    Ingest.handler errCtx postEvent =
      ⟨⟨400, .jobj [("error", .jstr "Request body must be valid JSON")]⟩,
        [], []⟩ :=
  (claim_C9_body_parsing errCtx postEvent "x" rfl rfl).1 (by decide) rfl
